import Mathlib

/-!
Verification development for the `cowork-triage` diagnostic agent.

The repository is a LangGraph workflow (Python).  This file gives a shallow
embedding of the state schema (`src/state.py`), the node functions
(`src/nodes/*.py`, `src/tools/github_tools.py`) and the routing functions
(`src/agent.py`), and proves properties of them.

Modelling conventions:
* Python `float` is embedded as `ℚ` (all constants in the source are decimal
  literals, so the arithmetic of the claims is exact over `ℚ`).
* Calls to the LLM and to the network are nondeterministic inputs; each node
  that performs such a call takes the (already parsed) outcome as an explicit
  argument.  A parse failure of a structured LLM response is `Option.none`.
* Python `TypedDict` values become structures; `NotRequired` fields become
  `Option`; a `dict` update `{**d, "k": v}` becomes a record update.
* Python string operations (`lower`, `strip`, `split`) are re-implemented on
  `List Char` (`String.data`) so that they compute by kernel reduction.
-/

/-! ## Python string primitives -/

/-- Python `str.lower()` (ASCII case folding, as used on the titles here). -/
def pyLower (s : String) : String := ⟨s.data.map Char.toLower⟩

/-- Python `str.strip()`: remove leading and trailing whitespace. -/
def pyStrip (s : String) : String :=
  ⟨((s.data.dropWhile Char.isWhitespace).reverse.dropWhile Char.isWhitespace).reverse⟩

/-- Helper for `pyWords`: split a character list on whitespace runs,
accumulating the current (reversed) word. -/
def splitWordsAux : List Char → List Char → List (List Char)
  | [], acc => if acc = [] then [] else [acc.reverse]
  | c :: cs, acc =>
    if c.isWhitespace then
      if acc = [] then splitWordsAux cs [] else acc.reverse :: splitWordsAux cs []
    else splitWordsAux cs (c :: acc)

/-- Python `str.split()` with no argument: words separated by whitespace runs,
no empty words. -/
def pyWords (s : String) : List String := (splitWordsAux s.data []).map String.mk

/-- Python `set(str.split())`: the distinct words of a string. -/
def pyWordSet (s : String) : List String := (pyWords s).dedup

/-! ## Data model (`src/state.py`) -/

/-- Embedding of `BugReport` (`src/state.py`).  `raw_description` is required, the other
extracted fields are `NotRequired`.  `additional_context` is not declared in
the `TypedDict` but is read with `.get("additional_context", "")` and written
by `user_input_node`; it is modelled as a `String` whose missing value is `""`. -/
structure BugReport where
  raw_description : String
  title : Option String
  steps_to_reproduce : Option (List String)
  expected_behavior : Option String
  actual_behavior : Option String
  environment : Option (List (String × String))
  error_message : Option String
  stack_trace : Option String
  additional_context : String
  deriving Repr, DecidableEq

/-- Embedding of `Classification` (`src/state.py`): failure type, confidence, reasoning.
The Python `Literal` type for `failure_type` is not enforced at runtime, so it
is modelled as `String`. -/
structure Classification where
  failure_type : String
  confidence : ℚ
  reasoning : String
  deriving Repr, DecidableEq

/-- Embedding of `LibraryDetection` (`src/state.py`). -/
structure LibraryDetection where
  primary : String
  all_libraries : List String
  components : List String
  confidence : ℚ
  deriving Repr, DecidableEq

/-- Embedding of `GitHubIssue` (`src/state.py`) as returned by `search_github_issues`,
before `github_search_node` attaches the `repo` field. -/
structure RawIssue where
  number : ℕ
  title : String
  url : String
  state : String
  relevance_score : ℚ
  summary : String
  deriving Repr, DecidableEq

/-- A `GitHubIssue` after `github_search_node` has set `issue["repo"] = repo`. -/
structure RepoIssue extends RawIssue where
  repo : String
  deriving Repr, DecidableEq

/-- Embedding of `RAGResult` (`src/state.py`). -/
structure RAGResult where
  error_pattern : String
  solution : String
  source : String
  similarity_score : ℚ
  deriving Repr, DecidableEq

/-- Embedding of `ConfidenceBreakdown` (`src/state.py`).  The free-text `explanation`
field (a formatted percentage listing) is not modelled; no claim concerns it. -/
structure ConfidenceBreakdown where
  classification : ℚ
  github : ℚ
  rag : ℚ
  library_detection : ℚ
  overall : ℚ
  deriving Repr, DecidableEq

/-- Embedding of `Hypothesis` (`src/state.py`).  `likelihood` is a string
(`"high" | "medium" | "low"` by intent, not enforced at runtime). -/
structure Hypothesis where
  description : String
  likelihood : String
  evidence : List String
  required_validations : List String
  deriving Repr, DecidableEq

/-- Embedding of `ResolutionStep` (`src/state.py`). -/
structure ResolutionStep where
  order : ℤ
  action : String
  rationale : String
  expected_outcome : String
  deriving Repr, DecidableEq

/-- A conversation message: role and content. -/
structure Message where
  role : String
  content : String
  deriving Repr, DecidableEq

/-- Embedding of `DiagnosticState` (`src/state.py`).  `NotRequired` fields are `Option`;
`messages` uses the append reducer, modelled by each node appending to the
list.  `github_confidence` is read with default `0.0`, modelled as a plain
`ℚ` field. -/
structure DiagState where
  messages : List Message
  bug_report : BugReport
  classification : Option Classification
  library_detection : Option LibraryDetection
  missing_info : List String
  info_gathering_attempts : ℕ
  related_issues : List RepoIssue
  rag_results : List RAGResult
  github_confidence : ℚ
  hypotheses : List Hypothesis
  selected_hypothesis : Option Hypothesis
  confidence_breakdown : Option ConfidenceBreakdown
  resolution_plan : List ResolutionStep
  current_phase : String
  needs_user_input : Bool
  user_question : Option String
  deriving Repr, DecidableEq

/-! ## Classifier node (`src/nodes/classifier.py`) -/

/-- The JSON object successfully extracted from the classification LLM
response: each field is looked up with `.get`, hence `Option`. -/
structure ParsedClassification where
  failure_type : Option String
  confidence : Option ℚ
  reasoning : Option String
  missing_info : Option (List String)
  deriving Repr, DecidableEq

/-- The exact fallback `Classification` built by `classifier_node` when
parsing the LLM response fails (`src/nodes/classifier.py`, lines 101–108). -/
def classifierFallback : Classification :=
  { failure_type := "unknown"
    confidence := 0.3
    reasoning := "Failed to parse classification response" }

/-- Embedding of `classifier_node` (`src/nodes/classifier.py`).  `parsed` is the outcome of
`extract_json_from_response` on the LLM reply: `none` models the
`(json.JSONDecodeError, KeyError, ValueError)` branch. -/
def classifier_node (parsed : Option ParsedClassification) (s : DiagState) : DiagState :=
  let (classification, missing_info) :=
    match parsed with
    | some r =>
        ({ failure_type := r.failure_type.getD "unknown"
           confidence := r.confidence.getD 0.5
           reasoning := r.reasoning.getD "" : Classification },
         r.missing_info.getD [])
    | none => (classifierFallback, ["error message", "steps to reproduce"])
  let next_phase :=
    if missing_info ≠ [] ∧ classification.confidence < 0.7 then "gathering" else "searching"
  { s with
    classification := some classification
    missing_info := missing_info
    current_phase := next_phase }

/-! ## Routing (`src/agent.py`) -/

/-- The node names of the graph (`build_diagnostic_graph`), plus `END`. -/
inductive GraphNode
  | intake | classifier | github_search | rag_search | diagnoser
  | info_gatherer | user_input | resolution | END
  deriving Repr, DecidableEq

/-- Embedding of `route_after_diagnosis` (`src/agent.py`, lines 40–58). -/
def route_after_diagnosis (s : DiagState) : String :=
  match s.hypotheses with
  | h :: _ =>
      if h.likelihood = "high" then "resolution"
      else if s.info_gathering_attempts < 2 then "gathering" else "end"
  | [] => if s.info_gathering_attempts < 2 then "gathering" else "end"

/-- Embedding of `route_after_user_input` (`src/agent.py`, lines 61–68): always back to the
diagnoser. -/
def route_after_user_input (_ : DiagState) : String := "diagnoser"

/-- The conditional-edge table attached to `diagnoser`
(`src/agent.py`, lines 115–123). -/
def diagnoser_edges (label : String) : Option GraphNode :=
  if label = "resolution" then some .resolution
  else if label = "gathering" then some .info_gatherer
  else if label = "end" then some .END
  else none

/-- The conditional-edge table attached to `user_input`
(`src/agent.py`, lines 129–135): the only target is the diagnoser. -/
def user_input_edges (label : String) : Option GraphNode :=
  if label = "diagnoser" then some .diagnoser else none

/-! ## Info gathering (`src/nodes/info_gatherer.py`) -/

/-- Embedding of `info_gatherer_node` (`src/nodes/info_gatherer.py`, lines 27–78).
`question` is the LLM-generated question (nondeterministic input). -/
def info_gatherer_node (question : String) (s : DiagState) : DiagState :=
  if s.info_gathering_attempts ≥ 3 then
    { s with
      current_phase := "searching"
      needs_user_input := false
      missing_info := [] }
  else
    { s with
      messages := s.messages ++ [{ role := "assistant", content := question }]
      needs_user_input := true
      user_question := some question
      info_gathering_attempts := s.info_gathering_attempts + 1 }

/-- Embedding of `user_input_node` (`src/nodes/info_gatherer.py`, lines 81–133).
`user_response` is the value passed to `Command(resume=...)`. -/
def user_input_node (user_response : String) (s : DiagState) : DiagState :=
  let bug_report := s.bug_report
  let additional_context :=
    (if bug_report.additional_context ≠ "" then bug_report.additional_context ++ "\n\n" else "")
      ++ "User clarification: " ++ user_response
  { s with
    bug_report := { bug_report with additional_context := additional_context }
    messages := s.messages ++ [{ role := "user", content := user_response }]
    needs_user_input := false
    current_phase := "classification" }

/-! ## Intake (`src/nodes/intake.py`) -/

/-- Embedding of `intake_node` (`src/nodes/intake.py`, lines 78–176).  `report` is the
structured bug report assembled from the LLM extraction (or the empty report
when no user message exists); in both branches the control fields are reset
identically (lines 102–114 and 166–176). -/
def intake_node (report : BugReport) (s : DiagState) : DiagState :=
  { s with
    bug_report := report
    current_phase := "classification"
    missing_info := []
    info_gathering_attempts := 0
    related_issues := []
    rag_results := []
    hypotheses := []
    resolution_plan := []
    needs_user_input := false }

/-! ## RAG search (`src/rag/retriever.py`) -/

/-- Embedding of `rag_search_node` (`src/rag/retriever.py`, lines 73–117).  `results` is
the outcome of the similarity search (empty on error or empty query). -/
def rag_search_node (results : List RAGResult) (s : DiagState) : DiagState :=
  { s with
    rag_results := results
    current_phase := "diagnosis" }

/-! ## A stable sort (embedding of Python `list.sort`)

Python `list.sort(key=k)` is a stable sort: an element goes before another
iff its key is strictly smaller, or the keys tie and it came first.
`sortByLe le` below, with `le a b` meaning "a may be placed before b",
reproduces exactly this order when `le` is the ≤ on keys
(`list.sort(key=k, reverse=True)` is the same with the reversed ≤). -/

/-- Insert `a` in front of the first element `b` with `le a b`. -/
def insertByLe (le : α → α → Bool) (a : α) : List α → List α
  | [] => [a]
  | b :: l => if le a b then a :: b :: l else b :: insertByLe le a l

/-- Stable insertion sort with respect to `le`. -/
def sortByLe (le : α → α → Bool) : List α → List α
  | [] => []
  | a :: l => insertByLe le a (sortByLe le l)

/-! ## Diagnoser (`src/nodes/diagnoser.py`) -/

/-- A hypothesis object as parsed from the diagnosis LLM response; each field
is looked up with `.get`. -/
structure ParsedHypothesis where
  description : Option String
  likelihood : Option String
  evidence : Option (List String)
  required_validations : Option (List String)
  deriving Repr, DecidableEq

/-- Conversion of a parsed hypothesis to the `Hypothesis` type
(`src/nodes/diagnoser.py`, lines 137–146). -/
def toHypothesis (h : ParsedHypothesis) : Hypothesis :=
  { description := h.description.getD ""
    likelihood := h.likelihood.getD "medium"
    evidence := h.evidence.getD []
    required_validations := h.required_validations.getD [] }

/-- The fallback hypothesis emitted when parsing the diagnosis response fails
(`src/nodes/diagnoser.py`, lines 148–158). -/
def diagnoserFallback : Hypothesis :=
  { description := "Unable to generate specific hypothesis - please review the error details manually"
    likelihood := "low"
    evidence := ["Parsing of diagnostic response failed"]
    required_validations := ["Manual review of error message and stack trace"] }

/-- Embedding of `likelihood_order.get(h["likelihood"], 3)`
(`src/nodes/diagnoser.py`, lines 160–162). -/
def likelihoodOrder (h : Hypothesis) : ℕ :=
  if h.likelihood = "high" then 0
  else if h.likelihood = "medium" then 1
  else if h.likelihood = "low" then 2
  else 3

/-- Embedding of `compute_confidence_breakdown` (`src/nodes/diagnoser.py`, lines 192–274).
`classification` and `library_detection` may be absent from the state (the
defaults `{}` then make the `.get` calls return 0.5 resp. 0.0); `hypotheses`
is accepted but unused, as in the source. -/
def compute_confidence_breakdown (classification : Option Classification)
    (github_confidence : ℚ) (rag_results : List RAGResult)
    (library_detection : Option LibraryDetection)
    (_hypotheses : List Hypothesis) : ConfidenceBreakdown :=
  let classification_conf := (classification.map (·.confidence)).getD 0.5
  let github_conf := github_confidence
  let rag_conf :=
    if rag_results ≠ [] then
      ((rag_results.take 3).map (·.similarity_score)).sum / (min 3 rag_results.length : ℚ)
    else 0
  let lib_conf := (library_detection.map (·.confidence)).getD 0
  let overall :=
    classification_conf * 0.30 + github_conf * 0.35 + rag_conf * 0.20 + lib_conf * 0.15
  { classification := classification_conf
    github := github_conf
    rag := rag_conf
    library_detection := lib_conf
    overall := overall }

/-- Embedding of `diagnoser_node` (`src/nodes/diagnoser.py`, lines 61–189).  `parsed` is
the decoded `hypotheses` array of the LLM response (`none` on parse failure).
The sort is Python's stable `list.sort(key=likelihood_order)`. -/
def diagnoser_node (parsed : Option (List ParsedHypothesis)) (s : DiagState) : DiagState :=
  let hypotheses :=
    match parsed with
    | some raw => raw.map toHypothesis
    | none => [diagnoserFallback]
  let sorted := sortByLe (fun a b => likelihoodOrder a ≤ likelihoodOrder b) hypotheses
  let selected := sorted.head?
  let breakdown := compute_confidence_breakdown s.classification s.github_confidence
    s.rag_results s.library_detection sorted
  let next_phase :=
    match selected with
    | some h => if h.likelihood = "high" then "resolution" else "complete"
    | none => "complete"
  { s with
    hypotheses := sorted
    selected_hypothesis := selected
    confidence_breakdown := some breakdown
    current_phase := next_phase }

/-! ## Resolution (`src/nodes/resolution.py`) -/

/-- A step object as parsed from the resolution LLM response. -/
structure ParsedStep where
  order : Option ℤ
  action : Option String
  rationale : Option String
  expected_outcome : Option String
  deriving Repr, DecidableEq

/-- The loop of `resolution_node` building the plan: the default `order` of a
step is `len(resolution_plan) + 1` at the time it is appended
(`src/nodes/resolution.py`, lines 93–102). -/
def buildPlan (raw : List ParsedStep) : List ResolutionStep :=
  raw.foldl
    (fun acc step =>
      acc ++ [{ order := step.order.getD (acc.length + 1)
                action := step.action.getD ""
                rationale := step.rationale.getD ""
                expected_outcome := step.expected_outcome.getD "" }])
    []

/-- The fixed two-step fallback plan of `resolution_node`
(`src/nodes/resolution.py`, lines 104–120). -/
def resolutionFallbackPlan : List ResolutionStep :=
  [{ order := 1
     action := "Review the error message and stack trace carefully"
     rationale := "Understanding the exact error is the first step"
     expected_outcome := "Identify the specific line or function causing the issue" },
   { order := 2
     action := "Search for the error message online"
     rationale := "Others may have encountered and solved this issue"
     expected_outcome := "Find relevant Stack Overflow posts or documentation" }]

/-- The advisory message of the defensive branch of `resolution_node`
(`src/nodes/resolution.py`, lines 36–47). -/
def resolutionAdvisory : String :=
  "Unable to generate a resolution plan. Please review the hypotheses manually."

/-- The main (non-defensive) branch of `resolution_node`
(`src/nodes/resolution.py`, lines 49–133): build the plan from the parsed
steps (or the fallback plan), append the formatted summary.  `summary` stands
for the output of `format_resolution_summary`, whose markdown text is not
itself modelled; `_hypothesis` is the selected hypothesis the branch works on. -/
def resolution_main (parsed : Option (List ParsedStep)) (summary : String)
    (_hypothesis : Hypothesis) (s : DiagState) : DiagState :=
  let plan := match parsed with
    | some raw => buildPlan raw
    | none => resolutionFallbackPlan
  { s with
    resolution_plan := plan
    current_phase := "complete"
    messages := s.messages ++ [{ role := "assistant", content := summary }] }

/-- Embedding of `resolution_node` (`src/nodes/resolution.py`, lines 18–133): the defensive
branch fires exactly when `selected_hypothesis` is absent. -/
def resolution_node (parsed : Option (List ParsedStep)) (summary : String)
    (s : DiagState) : DiagState :=
  match s.selected_hypothesis with
  | none =>
      { s with
        resolution_plan := []
        current_phase := "complete"
        messages := s.messages ++ [{ role := "assistant", content := resolutionAdvisory }] }
  | some h => resolution_main parsed summary h s

/-! ## GitHub tools (`src/tools/github_tools.py`) -/

/-- The key used by `github_search_node` for deduplication:
`f"{repo}#{issue['number']}"` (line 336). -/
def issueKey (repo : String) (number : ℕ) : String :=
  repo ++ "#" ++ toString number

/-- Embedding of `add_issue` (`src/tools/github_tools.py`, lines 334–341), acting on the
accumulator `(all_issues, seen_keys)`. -/
def addIssue (acc : List RepoIssue × List String) (p : String × RawIssue) :
    List RepoIssue × List String :=
  let key := issueKey p.1 p.2.number
  if key ∈ acc.2 then acc
  else (acc.1 ++ [{ p.2 with repo := p.1 }], key :: acc.2)

/-- The merge pipeline of `github_search_node`
(`src/tools/github_tools.py`, lines 331–399): the nested loops over
repositories and queries produce a sequence of `(repo, issues)` batches
(one per `search_github_issues` call, a network-dependent input); the node
flattens them, deduplicates by `(repo, number)` key, sorts by descending
`relevance_score` (Python's stable sort) and keeps the first 8. -/
def githubMerge (batches : List (String × List RawIssue)) : List RepoIssue :=
  let pairs := batches.flatMap (fun b => b.2.map (fun i => (b.1, i)))
  let all_issues := (pairs.foldl addIssue ([], [])).1
  let sorted := sortByLe (fun a b => b.relevance_score ≤ a.relevance_score) all_issues
  sorted.take 8

/-- The loop of Factor 1 of `compute_github_confidence`
(`src/tools/github_tools.py`, lines 434–449): running best title match over
the issues, with early exit (`break`) on an exact lowercased title match.
`t` is the lowered and stripped ticket title. -/
def bestTitleLoop (t : String) : List RepoIssue → ℚ → ℚ
  | [], best => best
  | issue :: rest, best =>
    let issue_title := pyStrip (pyLower issue.title)
    if t = issue_title then 1
    else
      let ticket_words := pyWordSet t
      let issue_words := pyWordSet issue_title
      let best' :=
        if ticket_words ≠ [] ∧ issue_words ≠ [] then
          max best ((ticket_words.filter (· ∈ issue_words)).length /
            (max ticket_words.length issue_words.length : ℚ))
        else best
      bestTitleLoop t rest best'

/-- Embedding of `compute_github_confidence` (`src/tools/github_tools.py`, lines 414–470). -/
def compute_github_confidence (issues : List RepoIssue) (ticket_title : String) : ℚ :=
  if issues = [] then 0
  else
    let t := pyStrip (pyLower ticket_title)
    let c1 := if t ≠ "" then bestTitleLoop t (issues.take 3) 0 * 0.4 else 0
    let closed_count := (issues.filter (·.state = "closed")).length
    let c2 := if closed_count > 0 then min 0.3 ((closed_count : ℚ) * 0.1) else 0
    let c3 : ℚ := if issues.length ≥ 3 then 0.2 else if issues.length ≥ 1 then 0.1 else 0
    let c4 := ((issues.take 3).map (·.relevance_score)).sum / (min 3 issues.length : ℚ) * 0.1
    min 1 (c1 + c2 + c3 + c4)

/-- Embedding of `github_search_node` (`src/tools/github_tools.py`, lines 303–411),
restricted to its state update.  `library_detection` is the (pure) result of
`detect_libraries` on the combined report text and `batches` the per-
(repository, query) search results; both are taken as inputs here, since the
claims quantify over them. -/
def github_search_node (library_detection : LibraryDetection)
    (batches : List (String × List RawIssue)) (s : DiagState) : DiagState :=
  let all_issues := githubMerge batches
  { s with
    related_issues := all_issues
    library_detection := some library_detection
    github_confidence := compute_github_confidence all_issues (s.bug_report.title.getD "")
    current_phase := "searching" }

/-! ## Session execution model (`src/agent.py`)

In `build_diagnostic_graph` the only edge into `intake` is from `START`, so
every execution of a session runs `intake` exactly once, first.  `Eff`
enumerates the applications of all other nodes together with their
nondeterministic inputs (LLM outcomes, network results, user answers); a
session is `intake` followed by any sequence of such steps.  This
over-approximates the graph's actual edge relation, so invariants proved over
it hold for every run of the compiled graph. -/

inductive Eff
  | classifierE (parsed : Option ParsedClassification)
  | githubE (library_detection : LibraryDetection) (batches : List (String × List RawIssue))
  | ragE (results : List RAGResult)
  | diagnoserE (parsed : Option (List ParsedHypothesis))
  | infoGathererE (question : String)
  | userInputE (response : String)
  | resolutionE (parsed : Option (List ParsedStep)) (summary : String)
  deriving Repr

/-- Apply one (non-intake) node of the graph to the state. -/
def applyEff : Eff → DiagState → DiagState
  | .classifierE parsed, s => classifier_node parsed s
  | .githubE ld batches, s => github_search_node ld batches s
  | .ragE results, s => rag_search_node results s
  | .diagnoserE parsed, s => diagnoser_node parsed s
  | .infoGathererE question, s => info_gatherer_node question s
  | .userInputE response, s => user_input_node response s
  | .resolutionE parsed summary, s => resolution_node parsed summary s

/-- The intermediate states of a run: the start state, then the state after
each step. -/
def statesTrail (s : DiagState) : List Eff → List DiagState
  | [] => [s]
  | e :: effs => s :: statesTrail (applyEff e s) effs

/-- All intermediate states of a session: `intake` first, then the given
steps. -/
def sessionStates (report : BugReport) (s0 : DiagState) (effs : List Eff) : List DiagState :=
  statesTrail (intake_node report s0) effs

/-! ## Spec-side definitions

These definitions follow the words of the specification (not the source);
the refinement theorems below compare them with the embedded source
functions. -/

/-- From the spec: the arithmetic mean of the similarity scores of the first
three knowledge results, 0 if there are none. -/
def specRagMeanTop3 (rag_results : List RAGResult) : ℚ :=
  if rag_results = [] then 0
  else ((rag_results.take 3).map (·.similarity_score)).sum / ((rag_results.take 3).length : ℚ)

/-- From the claim's words: the Jaccard overlap of two word-sets,
intersection size divided by union size. -/
def jaccardOverlap (A B : List String) : ℚ :=
  ((A.filter (· ∈ B)).length : ℚ) / (((A ∪ B).length : ℚ))

/-- The overlap ratio the source actually computes
(`src/tools/github_tools.py`, lines 446–448): intersection size divided by
the larger of the two word-set sizes. -/
def maxSizeOverlap (A B : List String) : ℚ :=
  ((A.filter (· ∈ B)).length : ℚ) / (max A.length B.length : ℚ)

/-- From the claim's words: the best title match over the top 3 issues — 1 on
an exact (case-insensitive) title match, otherwise the maximum of the given
overlap of the title word-sets. -/
def specBestTitleMatch (overlap : List String → List String → ℚ)
    (ticket_title : String) (issues : List RepoIssue) : ℚ :=
  let t := pyStrip (pyLower ticket_title)
  if (issues.take 3).any (fun i => t = pyStrip (pyLower i.title)) then 1
  else
    ((issues.take 3).map
      (fun i => overlap (pyWordSet t) (pyWordSet (pyStrip (pyLower i.title))))).foldr max 0

/-- From the claim's words: the GitHub confidence as the capped sum of the
four factors, with a pluggable title-overlap ratio. -/
def specGithubConfidence (overlap : List String → List String → ℚ)
    (issues : List RepoIssue) (ticket_title : String) : ℚ :=
  min 1 (specBestTitleMatch overlap ticket_title issues * 0.4
    + min 0.3 (((issues.filter (·.state = "closed")).length : ℚ) * 0.1)
    + (if issues.length ≥ 3 then (0.2 : ℚ) else if issues.length ≥ 1 then 0.1 else 0)
    + 0.1 * (((issues.take 3).map (·.relevance_score)).sum / ((issues.take 3).length : ℚ)))

/-! ## Sample inputs for witnesses and counterexamples -/

/-- A sample structured bug report. -/
def sampleReport : BugReport :=
  { raw_description := "the graph crashes on start"
    title := some "a b"
    steps_to_reproduce := none
    expected_behavior := none
    actual_behavior := none
    environment := none
    error_message := none
    stack_trace := none
    additional_context := "" }

/-- A sample state, as after `intake` of `sampleReport`. -/
def sampleState : DiagState :=
  { messages := []
    bug_report := sampleReport
    classification := none
    library_detection := none
    missing_info := []
    info_gathering_attempts := 0
    related_issues := []
    rag_results := []
    github_confidence := 0
    hypotheses := []
    selected_hypothesis := none
    confidence_breakdown := none
    resolution_plan := []
    current_phase := "classification"
    needs_user_input := false
    user_question := none }

/-- A single open issue whose title shares exactly one word with `"a b"`. -/
def sampleIssue : RepoIssue :=
  { number := 1
    title := "b c"
    url := "https://example.invalid/1"
    state := "open"
    relevance_score := 1
    summary := ""
    repo := "owner/repo" }

/-! ## General lemmas about the stable sort -/

theorem perm_insertByLe (le : α → α → Bool) (a : α) (l : List α) :
    (insertByLe le a l).Perm (a :: l) := by
  induction l with
  | nil => simp [insertByLe]
  | cons b l ih =>
    by_cases h : le a b = true
    · simp [insertByLe, h]
    · simp only [insertByLe, h, if_false]
      exact ((ih.cons b).trans (List.Perm.swap a b l))

theorem perm_sortByLe (le : α → α → Bool) (l : List α) :
    (sortByLe le l).Perm l := by
  induction l with
  | nil => simp [sortByLe]
  | cons a l ih =>
    exact (perm_insertByLe le a (sortByLe le l)).trans (ih.cons a)

theorem pairwise_insertByLe (le : α → α → Bool)
    (htot : ∀ a b, le a b = false → le b a = true)
    (htrans : ∀ a b c, le a b = true → le b c = true → le a c = true)
    (a : α) (l : List α) (h : l.Pairwise fun x y => le x y = true) :
    (insertByLe le a l).Pairwise fun x y => le x y = true := by
  induction l with
  | nil => simp [insertByLe]
  | cons b l ih =>
    rcases h with _ | ⟨hb, hl⟩
    by_cases hab : le a b = true
    · simp only [insertByLe, hab, if_true]
      refine List.Pairwise.cons ?_ (List.Pairwise.cons hb hl)
      intro y hy
      rcases List.mem_cons.mp hy with hy | hy
      · subst hy; exact hab
      · exact htrans a b y hab (hb y hy)
    · simp only [insertByLe, hab, if_false]
      refine List.Pairwise.cons ?_ (ih hl)
      intro y hy
      rcases List.mem_cons.mp ((perm_insertByLe le a l).mem_iff.mp hy) with rfl | hy
      · exact htot _ b (by simpa using hab)
      · exact hb y hy

theorem pairwise_sortByLe (le : α → α → Bool)
    (htot : ∀ a b, le a b = false → le b a = true)
    (htrans : ∀ a b c, le a b = true → le b c = true → le a c = true)
    (l : List α) :
    (sortByLe le l).Pairwise fun x y => le x y = true := by
  induction l with
  | nil => simp [sortByLe]
  | cons a l ih => exact pairwise_insertByLe le htot htrans a (sortByLe le l) ih

/-! ## Helper lemmas -/

theorem foldr_max_nonneg (l : List ℚ) : 0 ≤ l.foldr max 0 := by
  induction l with
  | nil => simp
  | cons a l ih => exact le_trans ih (le_max_right a _)

/-- The list `statesTrail s effs` always starts with `s`. -/
theorem statesTrail_eq_cons (s : DiagState) (effs : List Eff) :
    ∃ rest, statesTrail s effs = s :: rest := by
  cases effs with
  | nil => exact ⟨[], rfl⟩
  | cons e effs => exact ⟨statesTrail (applyEff e s) effs, rfl⟩

/-- No node other than `intake` decreases the attempts counter. -/
theorem applyEff_attempts_mono (e : Eff) (s : DiagState) :
    s.info_gathering_attempts ≤ (applyEff e s).info_gathering_attempts := by
  cases e with
  | infoGathererE q =>
      by_cases h : s.info_gathering_attempts ≥ 3
      · simp [applyEff, info_gatherer_node, h]
      · simp [applyEff, info_gatherer_node, h]
  | classifierE p => cases p <;> rfl
  | githubE ld b => rfl
  | ragE r => rfl
  | diagnoserE p => rfl
  | userInputE r => rfl
  | resolutionE p m => cases h : s.selected_hypothesis <;> simp [applyEff, resolution_node, h, resolution_main]

/-- No node other than `intake` pushes the attempts counter above 3. -/
theorem applyEff_attempts_le3 (e : Eff) (s : DiagState)
    (h : s.info_gathering_attempts ≤ 3) :
    (applyEff e s).info_gathering_attempts ≤ 3 := by
  cases e with
  | infoGathererE q =>
      by_cases h3 : s.info_gathering_attempts ≥ 3 <;>
        simp [applyEff, info_gatherer_node, h3] <;> omega
  | classifierE p => cases p <;> exact h
  | githubE ld b => exact h
  | ragE r => exact h
  | diagnoserE p => exact h
  | userInputE r => exact h
  | resolutionE p m => cases hs : s.selected_hypothesis <;> simpa [applyEff, resolution_node, hs, resolution_main] using h

theorem statesTrail_chain (effs : List Eff) : ∀ s : DiagState,
    List.Chain' (fun a b => a.info_gathering_attempts ≤ b.info_gathering_attempts)
      (statesTrail s effs) := by
  induction effs with
  | nil => intro s; simp [statesTrail]
  | cons e effs ih =>
    intro s
    obtain ⟨rest, hrest⟩ := statesTrail_eq_cons (applyEff e s) effs
    rw [statesTrail, hrest]
    exact List.Chain'.cons (by simpa [hrest] using applyEff_attempts_mono e s)
      (by rw [← hrest]; exact ih (applyEff e s))

theorem statesTrail_le3 (effs : List Eff) : ∀ s : DiagState,
    s.info_gathering_attempts ≤ 3 →
    ∀ t ∈ statesTrail s effs, t.info_gathering_attempts ≤ 3 := by
  induction effs with
  | nil =>
    intro s hs t ht
    simp [statesTrail] at ht
    subst ht; exact hs
  | cons e effs ih =>
    intro s hs t ht
    rw [statesTrail] at ht
    rcases List.mem_cons.mp ht with rfl | ht
    · exact hs
    · exact ih (applyEff e s) (applyEff_attempts_le3 e s hs) t ht

/-! ## Claim theorems -/

/-- C1: for every post-diagnosis state, `route_after_diagnosis` returns
`"resolution"` if the first hypothesis has likelihood `"high"`; otherwise
`"gathering"` (whose edge leads to `info_gatherer`) if
`info_gathering_attempts < 2`; otherwise `"end"`. -/
theorem route_after_diagnosis_spec (s : DiagState) :
    route_after_diagnosis s =
      (if (s.hypotheses.head?.map Hypothesis.likelihood) = some "high" then "resolution"
       else if s.info_gathering_attempts < 2 then "gathering" else "end")
    ∧ diagnoser_edges "resolution" = some GraphNode.resolution
    ∧ diagnoser_edges "gathering" = some GraphNode.info_gatherer
    ∧ diagnoser_edges "end" = some GraphNode.END := by
  refine ⟨?_, by decide, by decide, by decide⟩
  rcases hs : s.hypotheses with _ | ⟨h, l⟩
  · simp [route_after_diagnosis, hs]
  · by_cases hl : h.likelihood = "high" <;>
      simp [route_after_diagnosis, hs, hl]

/-- C2: the phase returned by `classifier_node` is `"gathering"` exactly when
`missing_info` is non-empty and the classification confidence is below 0.7,
and `"searching"` in every other case; at confidence 0.69 with missing info
the phase is `"gathering"`, at 0.70 it is `"searching"`. -/
theorem classifier_phase_spec (parsed : Option ParsedClassification) (s : DiagState) :
    (∃ c, (classifier_node parsed s).classification = some c ∧
      (classifier_node parsed s).current_phase =
        (if (classifier_node parsed s).missing_info ≠ [] ∧ c.confidence < 0.7
         then "gathering" else "searching"))
    ∧ (classifier_node (some ⟨some "runtime", some 0.69, some "", some ["stack trace"]⟩)
        sampleState).current_phase = "gathering"
    ∧ (classifier_node (some ⟨some "runtime", some 0.70, some "", some ["stack trace"]⟩)
        sampleState).current_phase = "searching" := by
  refine ⟨?_, ?_, ?_⟩
  · cases parsed with
    | none => exact ⟨classifierFallback, rfl, rfl⟩
    | some r =>
        refine ⟨{ failure_type := r.failure_type.getD "unknown"
                  confidence := r.confidence.getD 0.5
                  reasoning := r.reasoning.getD "" }, rfl, rfl⟩
  · show (if (["stack trace"] ≠ [] ∧ (0.69 : ℚ) < 0.7) then "gathering" else "searching") = "gathering"
    rw [if_pos ⟨by decide, by norm_num⟩]
  · show (if (["stack trace"] ≠ [] ∧ (0.70 : ℚ) < 0.7) then "gathering" else "searching") = "searching"
    rw [if_neg (by rintro ⟨-, h⟩; norm_num at h)]

/-- C3: `user_input_node` keeps every bug-report field except
`additional_context`, which becomes the prior context followed (after a blank
line when it was non-empty) by the answer labeled as a user clarification; it
clears `needs_user_input`, sets the phase to `"classification"`, and the edge
after `user_input` leads to the diagnoser — not to `github_search` or
`rag_search`. -/
theorem user_input_resume_spec (response : String) (s : DiagState) :
    (user_input_node response s).bug_report.raw_description = s.bug_report.raw_description
    ∧ (user_input_node response s).bug_report.title = s.bug_report.title
    ∧ (user_input_node response s).bug_report.steps_to_reproduce = s.bug_report.steps_to_reproduce
    ∧ (user_input_node response s).bug_report.expected_behavior = s.bug_report.expected_behavior
    ∧ (user_input_node response s).bug_report.actual_behavior = s.bug_report.actual_behavior
    ∧ (user_input_node response s).bug_report.environment = s.bug_report.environment
    ∧ (user_input_node response s).bug_report.error_message = s.bug_report.error_message
    ∧ (user_input_node response s).bug_report.stack_trace = s.bug_report.stack_trace
    ∧ (user_input_node response s).bug_report.additional_context =
        (if s.bug_report.additional_context ≠ "" then s.bug_report.additional_context ++ "\n\n"
         else "") ++ "User clarification: " ++ response
    ∧ (user_input_node response s).needs_user_input = false
    ∧ (user_input_node response s).current_phase = "classification"
    ∧ route_after_user_input (user_input_node response s) = "diagnoser"
    ∧ user_input_edges (route_after_user_input (user_input_node response s)) =
        some GraphNode.diagnoser
    ∧ GraphNode.diagnoser ≠ GraphNode.github_search
    ∧ GraphNode.diagnoser ≠ GraphNode.rag_search :=
  ⟨rfl, rfl, rfl, rfl, rfl, rfl, rfl, rfl, rfl, rfl, rfl, rfl,
    by simp [route_after_user_input, user_input_edges], by decide, by decide⟩

/-- C4: in every session, the attempts counter starts at 0 after `intake`, is
monotonically non-decreasing along the run, and never exceeds 3;
`info_gatherer_node` increments it by exactly 1 when it is below 3, and at 3
or more instead clears `missing_info`, leaves the counter unchanged, moves
the phase to `"searching"` and does not request user input. -/
theorem attempts_monotone_bounded (report : BugReport) (s0 : DiagState) (effs : List Eff) :
    (intake_node report s0).info_gathering_attempts = 0
    ∧ List.Chain' (fun a b => a.info_gathering_attempts ≤ b.info_gathering_attempts)
        (sessionStates report s0 effs)
    ∧ (∀ t ∈ sessionStates report s0 effs, t.info_gathering_attempts ≤ 3)
    ∧ (∀ (q : String) (s : DiagState), 3 ≤ s.info_gathering_attempts →
        info_gatherer_node q s =
          { s with current_phase := "searching", needs_user_input := false, missing_info := [] })
    ∧ (∀ (q : String) (s : DiagState), s.info_gathering_attempts < 3 →
        (info_gatherer_node q s).info_gathering_attempts = s.info_gathering_attempts + 1
        ∧ (info_gatherer_node q s).missing_info = s.missing_info) := by
  refine ⟨rfl, statesTrail_chain effs _, statesTrail_le3 effs _ (by simp [intake_node]), ?_, ?_⟩
  · intro q s h
    simp [info_gatherer_node, h]
  · intro q s h
    have h3 : ¬ s.info_gathering_attempts ≥ 3 := by omega
    simp [info_gatherer_node, h3]

/-- C4 witness: a concrete three-step session (classify, gather, gather),
instantiating the invariant. -/
theorem attempts_monotone_bounded_witness :
    (intake_node sampleReport sampleState).info_gathering_attempts = 0
    ∧ List.Chain' (fun a b => a.info_gathering_attempts ≤ b.info_gathering_attempts)
        (sessionStates sampleReport sampleState
          [.classifierE none, .infoGathererE "q1", .infoGathererE "q2"])
    ∧ (∀ t ∈ sessionStates sampleReport sampleState
          [.classifierE none, .infoGathererE "q1", .infoGathererE "q2"],
        t.info_gathering_attempts ≤ 3)
    ∧ (∀ (q : String) (s : DiagState), 3 ≤ s.info_gathering_attempts →
        info_gatherer_node q s =
          { s with current_phase := "searching", needs_user_input := false, missing_info := [] })
    ∧ (∀ (q : String) (s : DiagState), s.info_gathering_attempts < 3 →
        (info_gatherer_node q s).info_gathering_attempts = s.info_gathering_attempts + 1
        ∧ (info_gatherer_node q s).missing_info = s.missing_info) :=
  attempts_monotone_bounded sampleReport sampleState
    [.classifierE none, .infoGathererE "q1", .infoGathererE "q2"]

/-- C6 (code bug): `classifier_node` stores the parsed confidence without
clamping, so a parsed value of 1.5 yields a stored `Classification` whose
confidence exceeds 1, violating the documented range. -/
theorem classifier_confidence_unclamped :
    ∃ c, (classifier_node (some ⟨some "runtime", some 1.5, some "", some []⟩)
            sampleState).classification = some c
      ∧ 1 < c.confidence :=
  ⟨{ failure_type := "runtime", confidence := 1.5, reasoning := "" }, rfl, by norm_num⟩

/-- C8 counterexample: on a parse failure the stored reasoning is the string
`"Failed to parse classification response"`, not `"parse failure"`. -/
theorem classifier_fallback_reasoning_cex :
    ∃ c, (classifier_node none sampleState).classification = some c
      ∧ c.reasoning ≠ "parse failure" :=
  ⟨classifierFallback, rfl, by decide⟩

/-- C8 (amended): on any input whose classification response fails to parse,
`classifier_node` returns exactly `failure_type="unknown"`, confidence 0.3,
reasoning `"Failed to parse classification response"`, and
`missing_info = ["error message", "steps to reproduce"]`. -/
theorem classifier_fallback_spec (s : DiagState) :
    (classifier_node none s).classification =
        some { failure_type := "unknown", confidence := 0.3,
               reasoning := "Failed to parse classification response" }
    ∧ (classifier_node none s).missing_info = ["error message", "steps to reproduce"] :=
  ⟨rfl, rfl⟩

/-- C5: `compute_confidence_breakdown` returns
`overall = 0.30·classification + 0.35·github + 0.20·rag + 0.15·library`,
where the rag component is the mean similarity of the first three rag
results (0 if none); classification 0.8, github 0.6, rag 0.5, library 0.4
give overall 0.61. -/
theorem confidence_breakdown_overall (c : Option Classification) (g : ℚ)
    (rs : List RAGResult) (ld : Option LibraryDetection) (hyps : List Hypothesis) :
    ((compute_confidence_breakdown c g rs ld hyps).overall =
        0.30 * (compute_confidence_breakdown c g rs ld hyps).classification
        + 0.35 * (compute_confidence_breakdown c g rs ld hyps).github
        + 0.20 * specRagMeanTop3 rs
        + 0.15 * (compute_confidence_breakdown c g rs ld hyps).library_detection)
    ∧ (compute_confidence_breakdown c g rs ld hyps).rag = specRagMeanTop3 rs
    ∧ (compute_confidence_breakdown (some ⟨"api", 0.8, "r"⟩) 0.6
        [⟨"err", "sol", "src", 0.5⟩] (some ⟨"langgraph", [], [], 0.4⟩) []).overall = 0.61 := by
  have hrag : (compute_confidence_breakdown c g rs ld hyps).rag = specRagMeanTop3 rs := by
    by_cases h : rs = [] <;>
      simp [compute_confidence_breakdown, specRagMeanTop3, h, List.length_take]
  refine ⟨?_, hrag, ?_⟩
  · by_cases h : rs = [] <;>
      simp [compute_confidence_breakdown, specRagMeanTop3, h, List.length_take] <;>
      ring
  · norm_num [compute_confidence_breakdown]

/-- C10: whenever `route_after_diagnosis` returns `"resolution"` on the state
produced by `diagnoser_node`, that state's `selected_hypothesis` is present,
and `resolution_node` on that state takes its main branch, never the
defensive branch for an absent hypothesis. -/
theorem diagnoser_resolution_safe (parsed : Option (List ParsedHypothesis)) (s : DiagState)
    (h : route_after_diagnosis (diagnoser_node parsed s) = "resolution") :
    ∃ hyp, (diagnoser_node parsed s).selected_hypothesis = some hyp
      ∧ ∀ (steps : Option (List ParsedStep)) (summary : String),
          resolution_node steps summary (diagnoser_node parsed s) =
            resolution_main steps summary hyp (diagnoser_node parsed s) := by
  have hsel : (diagnoser_node parsed s).selected_hypothesis =
      (diagnoser_node parsed s).hypotheses.head? := rfl
  rcases hhyp : (diagnoser_node parsed s).hypotheses with _ | ⟨hd, tl⟩
  · exfalso
    unfold route_after_diagnosis at h
    rw [hhyp] at h
    by_cases hlt : (diagnoser_node parsed s).info_gathering_attempts < 2 <;>
      simp [hlt] at h
  · have hsome : (diagnoser_node parsed s).selected_hypothesis = some hd := by
      rw [hsel, hhyp]; rfl
    refine ⟨hd, hsome, ?_⟩
    intro steps summary
    simp [resolution_node, hsome]

/-- C10 witness: a diagnosis parse yielding one high-likelihood hypothesis
routes to resolution, and the conclusion holds there. -/
theorem diagnoser_resolution_safe_witness :
    route_after_diagnosis
        (diagnoser_node (some [⟨some "version mismatch", some "high", some [], some []⟩])
          sampleState) = "resolution"
    ∧ ∃ hyp, (diagnoser_node (some [⟨some "version mismatch", some "high", some [], some []⟩])
          sampleState).selected_hypothesis = some hyp
        ∧ ∀ (steps : Option (List ParsedStep)) (summary : String),
            resolution_node steps summary
                (diagnoser_node (some [⟨some "version mismatch", some "high", some [], some []⟩])
                  sampleState) =
              resolution_main steps summary hyp
                (diagnoser_node (some [⟨some "version mismatch", some "high", some [], some []⟩])
                  sampleState) :=
  ⟨by decide, diagnoser_resolution_safe _ _ (by decide)⟩

/-- The deduplication fold of `github_search_node` keeps the issue keys
pairwise distinct (invariant: every accumulated issue's key is in
`seen_keys`). -/
theorem foldl_addIssue_key_pairwise (pairs : List (String × RawIssue)) :
    ∀ acc : List RepoIssue × List String,
      acc.1.Pairwise (fun a b => issueKey a.repo a.number ≠ issueKey b.repo b.number) →
      (∀ i ∈ acc.1, issueKey i.repo i.number ∈ acc.2) →
      (pairs.foldl addIssue acc).1.Pairwise
        (fun a b => issueKey a.repo a.number ≠ issueKey b.repo b.number) := by
  induction pairs with
  | nil => intro acc h1 _h2; exact h1
  | cons p pairs ih =>
    intro acc h1 h2
    rw [List.foldl_cons]
    by_cases hk : issueKey p.1 p.2.number ∈ acc.2
    · have hacc : addIssue acc p = acc := by simp [addIssue, hk]
      rw [hacc]; exact ih acc h1 h2
    · have hacc : addIssue acc p =
          (acc.1 ++ [{ p.2 with repo := p.1 }], issueKey p.1 p.2.number :: acc.2) := by
        simp [addIssue, hk]
      rw [hacc]
      apply ih
      · rw [List.pairwise_append]
        refine ⟨h1, List.pairwise_singleton _ _, ?_⟩
        intro a ha b hb
        rw [List.mem_singleton] at hb
        subst hb
        intro hEq
        exact hk (hEq ▸ h2 a ha)
      · intro i hi
        rcases List.mem_append.mp hi with hi | hi
        · exact List.mem_cons_of_mem _ (h2 i hi)
        · rw [List.mem_singleton] at hi; subst hi; exact List.mem_cons_self _ _

/-- After merging, no two issues share the `(repo, number)` pair. -/
theorem githubMerge_key_pairwise (batches : List (String × List RawIssue)) :
    (githubMerge batches).Pairwise
      (fun a b => ¬(a.repo = b.repo ∧ a.number = b.number)) := by
  simp only [githubMerge]
  have hall := foldl_addIssue_key_pairwise
    (batches.flatMap fun b => b.2.map fun i => (b.1, i)) ([], [])
    (by simp) (by simp)
  have hperm := perm_sortByLe
    (fun a b : RepoIssue => decide (b.relevance_score ≤ a.relevance_score))
    ((batches.flatMap fun b => b.2.map fun i => (b.1, i)).foldl addIssue ([], [])).1
  have hsym : ∀ {x y : RepoIssue},
      ¬(x.repo = y.repo ∧ x.number = y.number) → ¬(y.repo = x.repo ∧ y.number = x.number) :=
    fun h hc => h ⟨hc.1.symm, hc.2.symm⟩
  have hsorted := (hperm.pairwise_iff hsym).mpr
    (hall.imp (fun h hc => h (by rw [issueKey, issueKey, hc.1, hc.2])))
  exact hsorted.sublist (List.take_sublist 8 _)

/-- After merging, at most 8 issues remain. -/
theorem githubMerge_length_le (batches : List (String × List RawIssue)) :
    (githubMerge batches).length ≤ 8 := by
  simp only [githubMerge]
  exact List.length_take_le 8 _

/-- After merging, the issues are in non-increasing `relevance_score` order. -/
theorem githubMerge_sorted (batches : List (String × List RawIssue)) :
    (githubMerge batches).Pairwise
      (fun a b => b.relevance_score ≤ a.relevance_score) := by
  simp only [githubMerge]
  have hs := pairwise_sortByLe (fun a b => decide (b.relevance_score ≤ a.relevance_score))
    (fun a b h => by
      simp only [decide_eq_false_iff_not] at h
      exact decide_eq_true (le_of_not_le h))
    (fun a b c h1 h2 => by
      simp only [decide_eq_true_eq] at h1 h2 ⊢
      exact le_trans h2 h1)
    ((batches.flatMap fun b => b.2.map fun i => (b.1, i)).foldl addIssue ([], [])).1
  exact (hs.imp (fun h => of_decide_eq_true h)).sublist (List.take_sublist 8 _)

/-- C9: for every bug report and combination of per-(repository, query)
search results, `github_search_node` returns `related_issues` with no two
entries sharing `(repo, number)`, at most 8 entries, sorted by non-increasing
relevance score. -/
theorem github_search_results_invariant (ld : LibraryDetection)
    (batches : List (String × List RawIssue)) (s : DiagState) :
    ((github_search_node ld batches s).related_issues.Pairwise
        (fun a b => ¬(a.repo = b.repo ∧ a.number = b.number)))
    ∧ (github_search_node ld batches s).related_issues.length ≤ 8
    ∧ ((github_search_node ld batches s).related_issues.Pairwise
        (fun a b => b.relevance_score ≤ a.relevance_score)) :=
  ⟨githubMerge_key_pairwise batches, githubMerge_length_le batches, githubMerge_sorted batches⟩

/-- Overlap against an empty word-set is 0. -/
theorem maxSizeOverlap_nil (A : List String) : maxSizeOverlap A [] = 0 := by
  simp [maxSizeOverlap]

/-- The running-best loop of Factor 1 computes the maximum overlap over the
scanned issues, or 1 as soon as an exact title match occurs. -/
theorem bestTitleLoop_eq (t : String) (hw : pyWordSet t ≠ []) :
    ∀ (l : List RepoIssue) (best : ℚ), 0 ≤ best →
      bestTitleLoop t l best =
        if l.any (fun i => t = pyStrip (pyLower i.title)) then 1
        else max best ((l.map (fun i =>
            maxSizeOverlap (pyWordSet t) (pyWordSet (pyStrip (pyLower i.title))))).foldr max 0) := by
  intro l
  induction l with
  | nil =>
    intro best hb
    simp [bestTitleLoop, max_eq_left hb]
  | cons i rest ih =>
    intro best hb
    by_cases hx : t = pyStrip (pyLower i.title)
    · have hloop : bestTitleLoop t (i :: rest) best = 1 := by
        simp only [bestTitleLoop]
        rw [if_pos hx]
      have hany : ((i :: rest).any fun j => decide (t = pyStrip (pyLower j.title))) = true := by
        simp [hx]
      rw [hloop, if_pos hany]
    · have hanyc : ((i :: rest).any fun j => decide (t = pyStrip (pyLower j.title))) =
          (rest.any fun j => decide (t = pyStrip (pyLower j.title))) := by
        simp [hx]
      by_cases hiw : pyWordSet (pyStrip (pyLower i.title)) = []
      · have hcond : ¬(pyWordSet t ≠ [] ∧ pyWordSet (pyStrip (pyLower i.title)) ≠ []) :=
          fun hc => hc.2 hiw
        have hloop : bestTitleLoop t (i :: rest) best = bestTitleLoop t rest best := by
          simp only [bestTitleLoop]
          rw [if_neg hx, if_neg hcond]
        rw [hloop, ih best hb, hanyc, List.map_cons, List.foldr_cons, hiw, maxSizeOverlap_nil,
          max_eq_right (foldr_max_nonneg _)]
      · have hcond : pyWordSet t ≠ [] ∧ pyWordSet (pyStrip (pyLower i.title)) ≠ [] := ⟨hw, hiw⟩
        have hloop : bestTitleLoop t (i :: rest) best =
            bestTitleLoop t rest
              (max best (maxSizeOverlap (pyWordSet t) (pyWordSet (pyStrip (pyLower i.title))))) := by
          simp only [bestTitleLoop]
          rw [if_neg hx, if_pos hcond]
          rfl
        rw [hloop, ih _ (le_trans hb (le_max_left _ _)), hanyc, List.map_cons, List.foldr_cons]
        by_cases hany : (rest.any fun j => decide (t = pyStrip (pyLower j.title))) = true
        · rw [if_pos hany, if_pos hany]
        · rw [if_neg hany, if_neg hany, max_assoc]

/-- C7 (amended): for a non-empty issue list and a ticket title containing at
least one word, `compute_github_confidence` equals the claim's four-factor
formula, with the title-overlap ratio being intersection size over the larger
word-set size (not over the union size). -/
theorem github_confidence_spec (issues : List RepoIssue) (ticket_title : String)
    (h1 : issues ≠ []) (h2 : pyWords (pyStrip (pyLower ticket_title)) ≠ []) :
    compute_github_confidence issues ticket_title =
      specGithubConfidence maxSizeOverlap issues ticket_title := by
  have ht : pyStrip (pyLower ticket_title) ≠ "" := by
    intro hh
    apply h2
    rw [hh]
    rfl
  have hw : pyWordSet (pyStrip (pyLower ticket_title)) ≠ [] := by
    simpa [pyWordSet, List.dedup_eq_nil] using h2
  have hbest : bestTitleLoop (pyStrip (pyLower ticket_title)) (issues.take 3) 0 =
      specBestTitleMatch maxSizeOverlap ticket_title issues := by
    rw [bestTitleLoop_eq _ hw (issues.take 3) 0 le_rfl]
    simp only [specBestTitleMatch]
    by_cases hany : ((issues.take 3).any fun i =>
        decide (pyStrip (pyLower ticket_title) = pyStrip (pyLower i.title))) = true
    · rw [if_pos hany, if_pos hany]
    · rw [if_neg hany, if_neg hany, max_eq_right (foldr_max_nonneg _)]
  have hc2 : ∀ n : ℕ,
      (if n > 0 then min (0.3:ℚ) ((n:ℚ) * 0.1) else 0) = min 0.3 ((n:ℚ) * 0.1) := by
    intro n
    rcases Nat.eq_zero_or_pos n with hn | hn
    · subst hn; norm_num
    · rw [if_pos hn]
  simp only [compute_github_confidence, specGithubConfidence]
  rw [if_neg h1, if_pos ht, hbest, hc2]
  apply congrArg (min (1:ℚ))
  rw [List.length_take]
  push_cast
  ring

/-- C7 counterexample: for ticket title `"a b"` and a single open issue
titled `"b c"` with relevance 1, the source computes 2/5 (overlap 1/2 of the
larger set size), while the claim's Jaccard formula (intersection over union)
gives 1/3. -/
theorem github_confidence_jaccard_cex :
    compute_github_confidence [sampleIssue] "a b" = 2/5
    ∧ specGithubConfidence jaccardOverlap [sampleIssue] "a b" = 1/3
    ∧ ¬ (compute_github_confidence [sampleIssue] "a b" =
          specGithubConfidence jaccardOverlap [sampleIssue] "a b") := by
  have e1 : pyStrip (pyLower "a b") = "a b" := by decide
  have e2 : pyStrip (pyLower "b c") = "b c" := by decide
  have e3 : pyWordSet "a b" = ["a", "b"] := by decide
  have e4 : pyWordSet "b c" = ["b", "c"] := by decide
  have efilter : ((["a", "b"] : List String).filter
      (fun x => decide (x ∈ (["b", "c"] : List String)))).length = 1 := by decide
  have hov : maxSizeOverlap (pyWordSet "a b") (pyWordSet "b c") = 1/2 := by
    rw [maxSizeOverlap, e3, e4, efilter]
    norm_num
  have hjac : jaccardOverlap (pyWordSet "a b") (pyWordSet "b c") = 1/3 := by
    have eunion : ((["a", "b"] : List String) ∪ ["b", "c"]).length = 3 := by decide
    rw [jaccardOverlap, e3, e4, efilter, eunion]
    norm_num
  have h1 : compute_github_confidence [sampleIssue] "a b" = 2/5 := by
    have hloop : bestTitleLoop "a b" [sampleIssue] 0 = 1/2 := by
      have hx : ¬ ("a b" = pyStrip (pyLower sampleIssue.title)) := by decide
      have hcond : pyWordSet "a b" ≠ [] ∧ pyWordSet (pyStrip (pyLower sampleIssue.title)) ≠ [] := by
        constructor <;> decide
      simp only [bestTitleLoop]
      rw [if_neg hx, if_pos hcond]
      show bestTitleLoop "a b" [] (max 0 (maxSizeOverlap (pyWordSet "a b")
        (pyWordSet (pyStrip (pyLower sampleIssue.title))))) = 1/2
      have : pyStrip (pyLower sampleIssue.title) = "b c" := by decide
      rw [bestTitleLoop, this, hov]
      norm_num
    simp only [compute_github_confidence]
    rw [if_neg (by decide : ¬ ([sampleIssue] = [])), e1,
      if_pos (by decide : ("a b" : String) ≠ "")]
    have htake : (([sampleIssue] : List RepoIssue).take 3) = [sampleIssue] := by decide
    rw [htake, hloop]
    have hclosed : (([sampleIssue] : List RepoIssue).filter
        (fun i => decide (i.state = "closed"))).length = 0 := by decide
    rw [hclosed]
    norm_num [sampleIssue, min_def, max_def]
  have h2 : specGithubConfidence jaccardOverlap [sampleIssue] "a b" = 1/3 := by
    have hany : ¬ ((([sampleIssue] : List RepoIssue).take 3).any
        (fun i => decide (pyStrip (pyLower "a b") = pyStrip (pyLower i.title))) = true) := by
      decide
    have hbest : specBestTitleMatch jaccardOverlap "a b" [sampleIssue] = 1/3 := by
      simp only [specBestTitleMatch]
      rw [if_neg hany]
      have htake : (([sampleIssue] : List RepoIssue).take 3) = [sampleIssue] := by decide
      rw [htake, List.map_cons, List.map_nil, List.foldr_cons, List.foldr_nil, e1]
      have : pyStrip (pyLower sampleIssue.title) = "b c" := by decide
      rw [this, hjac]
      norm_num [max_def]
    simp only [specGithubConfidence]
    rw [hbest]
    have hclosed : (([sampleIssue] : List RepoIssue).filter
        (fun i => decide (i.state = "closed"))).length = 0 := by decide
    rw [hclosed]
    norm_num [sampleIssue, min_def, max_def]
  refine ⟨h1, h2, ?_⟩
  rw [h1, h2]
  norm_num

/-- C7 witness: the amended formula instantiated at the counterexample
input. -/
theorem github_confidence_spec_witness :
    ([sampleIssue] : List RepoIssue) ≠ []
    ∧ pyWords (pyStrip (pyLower "a b")) ≠ []
    ∧ compute_github_confidence [sampleIssue] "a b" =
        specGithubConfidence maxSizeOverlap [sampleIssue] "a b" :=
  ⟨by decide, by decide,
    github_confidence_spec [sampleIssue] "a b" (by decide) (by decide)⟩
